import Mathlib

/-!
Verification of the cfproxy repository (a CurseForge API forwarding proxy)
against its natural-language specification.

The Rust sources are shallowly embedded: `hyper`/`http` data types
(`Uri`, `HeaderMap`, `Request`, `Response`) become Lean structures, the pure
request transformer and IP-resolution functions become Lean functions, and
Rust panics (`unwrap` / `expect`) are modelled as `Option.none` results.
Machine strings are Lean `String`s; raw header-value bytes are `List Nat`
(hyper `HeaderValue`s may carry non-UTF-8 opaque bytes, so they are kept at
byte granularity).
-/

namespace CFProxy

/-- Model of `http::HeaderValue`: an opaque byte sequence. The `http` crate
permits bytes 32..=255 except 127, plus tab (9); in particular bytes that are
not visible ASCII (128..=255) are representable and can arrive from the wire. -/
structure HeaderValue where
  bytes : List Nat
deriving DecidableEq

/-- Byte validity check of `http::HeaderValue` construction
(`is_valid(b) = b >= 32 && b != 127 || b == b'\t'`, bytes only). -/
def isValidHeaderByte (b : Nat) : Bool :=
  (decide (32 ≤ b) && decide (b ≠ 127) && decide (b ≤ 255)) || decide (b = 9)

/-- Model of `HeaderValue::from_str` (as used on the `CF_API_KEY` value, at
byte granularity): succeeds exactly when every byte is permitted. -/
def headerValueOfBytes? (bs : List Nat) : Option HeaderValue :=
  if bs.all isValidHeaderByte then some ⟨bs⟩ else none

/-- Byte check of `HeaderValue::to_str`: a value converts to `&str` exactly
when every byte is visible ASCII (32..=126) or tab. -/
def isVisibleAsciiByte (b : Nat) : Bool :=
  (decide (32 ≤ b) && decide (b < 127)) || decide (b = 9)

/-- Bytes of an ASCII string literal. -/
def strBytes (s : String) : List Nat :=
  s.data.map Char.toNat

/-- String from (visible-ASCII) bytes. -/
def bytesToStr (bs : List Nat) : String :=
  String.mk (bs.map Char.ofNat)

/-- Model of `HeaderValue::to_str` followed by `.unwrap()`-free use:
`some` when all bytes are visible ASCII or tab, `none` when `to_str` errors. -/
def HeaderValue.toStr? (v : HeaderValue) : Option String :=
  if v.bytes.all isVisibleAsciiByte then some (bytesToStr v.bytes) else none

/-- ASCII lowercasing of a header name, modelling the case-insensitivity of
`http::HeaderName` (hyper stores and compares names lowercased). -/
def lowerStr (s : String) : String :=
  String.mk (s.data.map Char.toLower)

/-- Model of `http::HeaderMap`: an ordered list of name/value entries. -/
structure HeaderMap where
  entries : List (String × HeaderValue)
deriving DecidableEq

/-- Model of `HeaderMap::get`: the first value whose name matches
case-insensitively. -/
def HeaderMap.get (m : HeaderMap) (name : String) : Option HeaderValue :=
  (m.entries.find? (fun e => decide (lowerStr e.1 = lowerStr name))).map Prod.snd

/-- Model of `HeaderMap::insert`: all previous values for the name are
removed and the new value is associated with it. (The real map keeps the
entry position; only the position differs, every `get` agrees.) -/
def HeaderMap.insert (m : HeaderMap) (name : String) (v : HeaderValue) : HeaderMap :=
  ⟨(name, v) :: m.entries.filter (fun e => decide (lowerStr e.1 ≠ lowerStr name))⟩

/-- Model of `http::Uri` in parts form (`Parts`): optional scheme, optional
authority, optional path-and-query (kept verbatim as the raw string). -/
structure Uri where
  scheme : Option String
  authority : Option String
  pathAndQuery : Option String
deriving DecidableEq

/-- Model of `Uri::from_parts`: with a scheme present, both an authority and
a path-and-query are required; an authority with a path-and-query but no
scheme is also rejected (the `http` crate's rules). -/
def Uri.fromParts (scheme authority pq : Option String) : Option Uri :=
  match scheme, authority, pq with
  | some s, some a, some p => some ⟨some s, some a, some p⟩
  | some _, none, _ => none
  | some _, _, none => none
  | none, some _, some _ => none
  | none, a, p => some ⟨none, a, p⟩

/-- Model of `Uri::path`: the path part of the path-and-query ("/" when the
request target has no path-and-query). -/
def Uri.path (u : Uri) : String :=
  match u.pathAndQuery with
  | none => "/"
  | some pq =>
    let p := String.mk (pq.data.takeWhile (fun c => decide (c ≠ '?')))
    if p = "" then "/" else p

/-- Model of `hyper::Request<Body>`: method, target URI, headers, body bytes. -/
structure Request where
  method : String
  uri : Uri
  headers : HeaderMap
  body : List Nat
deriving DecidableEq

/-- Model of `hyper::Response<Body>` at the granularity the claims need:
status code and plaintext body. -/
structure Response where
  status : Nat
  body : String
deriving DecidableEq

/-- Embedding of `get_proxy_req` (src/src/lib.rs lines 20-35) and of its
verbatim copy `get_proxy_request` (src/src/main.rs lines 44-59).

The source takes the inbound request's URI parts, overwrites the authority
with `Authority::from_static("api.curseforge.com")` and the scheme with
`Scheme::HTTPS`, rebuilds the URI with `Uri::from_parts(..).unwrap()`,
inserts the `host` header, and inserts the `x-api-key` header built by
`HeaderValue::from_str(&CF_API_KEY[..]).unwrap()`. The two `unwrap`s are the
only failure points and are modelled as `none` (a panic). The secret is the
`CF_API_KEY` value, passed here as the byte list the lazy static holds. -/
def get_proxy_req (secret : List Nat) (req : Request) : Option Request :=
  match Uri.fromParts (some "https") (some "api.curseforge.com") req.uri.pathAndQuery,
        headerValueOfBytes? secret with
  | some newUri, some keyVal =>
    some { req with
            uri := newUri,
            headers := (req.headers.insert "host" ⟨strBytes "api.curseforge.com"⟩).insert
              "x-api-key" keyVal }
  | _, _ => none

/-- Embedding of `get_proxy_request` (src/src/main.rs lines 44-59), which is
textually identical to `get_proxy_req` in src/src/lib.rs. -/
def get_proxy_request (secret : List Nat) (req : Request) : Option Request :=
  get_proxy_req secret req

/-- Model of `std::net::IpAddr`: a v4 address (four octets) or a v6 address
(eight 16-bit groups). -/
inductive IpAddr where
  | v4 (a b c d : Nat)
  | v6 (a b c d e f g h : Nat)
deriving DecidableEq

/-- Decimal digit value of a character. -/
def digitVal (c : Char) : Nat :=
  c.toNat - 48

/-- Split a character list at every occurrence of a separator character.
Matches `String.splitOn` for a one-character separator (kept structurally
recursive so concrete parses reduce inside the kernel). -/
def splitOnChar (sep : Char) : List Char → List (List Char)
  | [] => [[]]
  | c :: t =>
    if c = sep then [] :: splitOnChar sep t
    else
      match splitOnChar sep t with
      | [] => [[c]]
      | g :: gs => (c :: g) :: gs

/-- Split a string at every occurrence of a separator character. -/
def splitStr (sep : Char) (s : String) : List String :=
  (splitOnChar sep s.data).map String.mk

/-- Model of the octet reader inside `core::net`'s IPv4 parser
(`Ipv4Addr::from_str`): one to three decimal digits, no leading zero unless
the octet is exactly "0", value at most 255. -/
def parseOctet? (s : String) : Option Nat :=
  let cs := s.data
  if cs.isEmpty || !cs.all Char.isDigit then none
  else if decide (cs.length > 3) then none
  else if decide (cs.length > 1) && decide (cs.head? = some '0') then none
  else
    let v := cs.foldl (fun a c => a * 10 + digitVal c) 0
    if decide (v ≤ 255) then some v else none

/-- Model of `str::parse::<Ipv4Addr>` (`core::net`): exactly four octets
separated by dots, the whole string consumed. -/
def parseIPv4? (s : String) : Option IpAddr :=
  match (splitStr '.' s).mapM parseOctet? with
  | some [a, b, c, d] => some (.v4 a b c d)
  | _ => none

/-- Hexadecimal digit value of a character, `none` on a non-hex character. -/
def hexDigitVal? (c : Char) : Option Nat :=
  if decide ('0' ≤ c) && decide (c ≤ '9') then some (c.toNat - 48)
  else if decide ('a' ≤ c) && decide (c ≤ 'f') then some (c.toNat - 87)
  else if decide ('A' ≤ c) && decide (c ≤ 'F') then some (c.toNat - 55)
  else none

/-- Model of the 16-bit group reader of `core::net`'s IPv6 parser: one to
four hex digits (leading zeros permitted). -/
def parseHextet? (s : String) : Option Nat :=
  let cs := s.data
  if cs.isEmpty || decide (cs.length > 4) then none
  else (cs.mapM hexDigitVal?).map (fun ds => ds.foldl (fun a d => a * 16 + d) 0)

/-- Parse a list of ':'-separated pieces as 16-bit groups, where only the
final piece may instead be an embedded IPv4 address (contributing two
groups), as in `core::net`'s IPv6 parser. -/
def parseGroupsWithV4 : List String → Option (List Nat)
  | [] => some []
  | [p] =>
    match parseHextet? p with
    | some g => some [g]
    | none =>
      match parseIPv4? p with
      | some (.v4 a b c d) => some [a * 256 + b, c * 256 + d]
      | _ => none
  | p :: rest =>
    match parseHextet? p, parseGroupsWithV4 rest with
    | some g, some gs => some (g :: gs)
    | _, _ => none

/-- Parse a list of ':'-separated pieces as plain 16-bit groups (no embedded
IPv4 allowed: positions left of a "::" compression). -/
def parseGroups (ps : List String) : Option (List Nat) :=
  ps.mapM parseHextet?

/-- Assemble an IPv6 address from the groups left and right of a "::"
compression, padding with zero groups; the compression must stand for at
least one group. -/
def mkCompressedV6 (l r : List Nat) : Option IpAddr :=
  if decide (l.length + r.length ≤ 7) then
    match l ++ List.replicate (8 - l.length - r.length) 0 ++ r with
    | [a, b, c, d, e, f, g, h] => some (.v6 a b c d e f g h)
    | _ => none
  else none

/-- True when no piece of the list is empty. -/
def hasNoEmpty (l : List String) : Bool :=
  l.all (fun p => !(p = ""))

/-- Model of `str::parse::<Ipv6Addr>` (`core::net`): eight 16-bit hex groups
separated by ':', at most one "::" compression (standing for one or more
zero groups), and an optional embedded IPv4 address in the final position.
Implemented over the ':'-pieces of the input: a "::" shows up as an empty
piece (two leading/trailing empty pieces at the string's ends). -/
def parseIPv6? (s : String) : Option IpAddr :=
  let ps := splitStr ':' s
  match ps.findIdx? (fun p => decide (p = "")) with
  | none =>
    match parseGroupsWithV4 ps with
    | some [a, b, c, d, e, f, g, h] => some (.v6 a b c d e f g h)
    | _ => none
  | some i =>
    if ps = ["", "", ""] then mkCompressedV6 [] []
    else if decide (i = 0) then
      match ps with
      | "" :: "" :: rest =>
        if hasNoEmpty rest && !(rest = []) then
          (parseGroupsWithV4 rest).bind (fun r => mkCompressedV6 [] r)
        else none
      | _ => none
    else
      let l := ps.take i
      let rest := ps.drop (i + 1)
      if rest = [""] then (parseGroups l).bind (fun lg => mkCompressedV6 lg [])
      else if hasNoEmpty rest && !(rest = []) then
        (parseGroups l).bind (fun lg =>
          (parseGroupsWithV4 rest).bind (fun rg => mkCompressedV6 lg rg))
      else none

/-- The parse sequence of `get_real_ip_addr` (src/src/lib.rs lines 45-50):
first `client_ip.parse::<Ipv4Addr>()`, then, on failure,
`client_ip.parse::<Ipv6Addr>()`. -/
def parse_ip? (s : String) : Option IpAddr :=
  match parseIPv4? s with
  | some ip => some ip
  | none => parseIPv6? s

/-- Embedding of `get_real_ip_addr` (src/src/lib.rs lines 41-54).

The source reads the `Fly-Client-IP` header; when present it calls
`client_ip.to_str().unwrap()` — the `unwrap` panics when the value holds
bytes that are not visible ASCII, modelled as `none`. A non-empty value is
parsed as IPv4 then IPv6, returning the parsed literal; in every other case
the direct peer address `remote_addr` is returned. -/
def get_real_ip_addr (req : Request) (remote_addr : IpAddr) : Option IpAddr :=
  match req.headers.get "Fly-Client-IP" with
  | some v =>
    match v.toStr? with
    | none => none
    | some client_ip =>
      if client_ip = "" then some remote_addr
      else
        match parse_ip? client_ip with
        | some ip => some ip
        | none => some remote_addr
  | none => some remote_addr

/-- The key main.rs consults the rate limiter with (src/src/main.rs lines
74-83): `remote_addr = socket.remote_addr().ip()`, the direct TCP peer of
the connection, passed to both `until_key_ready_with_jitter` and
`check_key`. No request data enters the key. -/
def rate_limit_key (remote_addr : IpAddr) : IpAddr :=
  remote_addr

/-- Output stream a log line is printed to: `println!` goes to stdout,
`eprintln!` to stderr. -/
inductive LogStream where
  | stdout
  | stderr
deriving DecidableEq

/-- One emitted log line: the stream and the formatted text. -/
structure LogLine where
  stream : LogStream
  text : String
deriving DecidableEq

/-- Hex rendering of a 16-bit group (lowercase, as Rust's `LowerHex`). -/
def natToHex (n : Nat) : String :=
  String.mk (Nat.toDigits 16 n)

/-- Model of `Display` for `IpAddr` as far as the log lines need it: dotted
decimal for v4; for v6, hex groups joined by ':' (the zero-run compression
of Rust's v6 `Display` is not modelled — no claim depends on the exact v6
rendering, only on which address is rendered). -/
def ipDisplay : IpAddr → String
  | .v4 a b c d =>
    toString a ++ "." ++ toString b ++ "." ++ toString c ++ "." ++ toString d
  | .v6 a b c d e f g h =>
    natToHex a ++ ":" ++ natToHex b ++ ":" ++ natToHex c ++ ":" ++ natToHex d ++ ":"
      ++ natToHex e ++ ":" ++ natToHex f ++ ":" ++ natToHex g ++ ":" ++ natToHex h

/-- Model of the `{:>15}` format padding: right-align in a field of width
fifteen. -/
def padTo15 (s : String) : String :=
  String.mk (List.replicate (15 - s.length) ' ') ++ s

/-- Embedding of `proxy_request_to_cf` (src/src/lib.rs lines 60-84).

The upstream call `client.request(proxy_req).await` is a network effect and
enters the model as the `upstream` parameter: `Except.ok resp` for a
successful upstream response, `Except.error errText` for a transport or
protocol failure (`errText` standing for the `{:#?}` rendering of the
`hyper::Error`). On success the upstream response is returned unchanged and
a stdout line `[{remote}] <-> {path} => {status}` is printed; on failure a
fixed 500 response with body "Proxy Server Error while reading request" is
synthesized and a stderr line `[{remote}] <!> {path} failed: {err}` is
printed. The Rust function's return type is `Result<_, Infallible>`: it
always returns `Ok`, never propagating the error — modelled by returning the
response/log pair. `none` models the panic of `get_proxy_req` inside. -/
def proxy_request_to_cf (secret : List Nat) (remote_addr : IpAddr) (req : Request)
    (upstream : Except String Response) : Option (Response × List LogLine) :=
  match get_proxy_req secret req with
  | none => none
  | some proxyReq =>
    match upstream with
    | .ok resp =>
      some (resp, [⟨.stdout,
        "[" ++ ipDisplay remote_addr ++ "] <-> " ++ proxyReq.uri.path ++ " => "
          ++ toString resp.status⟩])
    | .error errText =>
      some (⟨500, "Proxy Server Error while reading request"⟩,
        [⟨.stderr,
          "[" ++ ipDisplay remote_addr ++ "] <!> " ++ proxyReq.uri.path ++ " failed: "
            ++ errText⟩])

/-- Embedding of the per-request `service_fn` closure of main.rs (src/src/
main.rs lines 85-103). Identical to `proxy_request_to_cf` except that the
remote address is padded with `{:>15}` and the failure line is
`[{remote:>15}] <!> {path} failed` — main.rs prints no failure detail. -/
def handle_request (secret : List Nat) (remote_addr : IpAddr) (req : Request)
    (upstream : Except String Response) : Option (Response × List LogLine) :=
  match get_proxy_request secret req with
  | none => none
  | some proxyReq =>
    match upstream with
    | .ok resp =>
      some (resp, [⟨.stdout,
        "[" ++ padTo15 (ipDisplay remote_addr) ++ "] <-> " ++ proxyReq.uri.path ++ " => "
          ++ toString resp.status⟩])
    | .error _ =>
      some (⟨500, "Proxy Server Error while reading request"⟩,
        [⟨.stderr,
          "[" ++ padTo15 (ipDisplay remote_addr) ++ "] <!> " ++ proxyReq.uri.path
            ++ " failed"⟩])

/-- The process environment as main.rs reads it: `CF_API_KEY` (kept as raw
bytes), `PORT` and `REQ_LIMIT_PER_SEC` (numeric strings). -/
structure Env where
  cf_api_key : Option (List Nat)
  port : Option String
  req_limit_per_sec : Option String

/-- Model of `str::parse` for unsigned integers (`FromStr`): an optional
leading '+', then one or more decimal digits, nothing else. -/
def parseUnsigned? (s : String) : Option Nat :=
  let cs := match s.data with
            | '+' :: rest => rest
            | cs => cs
  if cs.isEmpty || !cs.all Char.isDigit then none
  else some (cs.foldl (fun a c => a * 10 + digitVal c) 0)

/-- Model of `parse::<u16>`: bounded by 65535. -/
def parseU16? (s : String) : Option Nat :=
  (parseUnsigned? s).bind (fun n => if decide (n ≤ 65535) then some n else none)

/-- Model of `parse::<u32>`: bounded by 4294967295. -/
def parseU32? (s : String) : Option Nat :=
  (parseUnsigned? s).bind (fun n => if decide (n ≤ 4294967295) then some n else none)

/-- Embedding of main.rs startup up to `Server::bind(..).serve(..)`
(src/src/main.rs lines 61-70, 107).

Before the server starts serving, main dereferences the `PORT` lazy static
(line 65: `SocketAddr::from(([127,0,0,1], *PORT))`) and the
`REQ_LIMIT_PER_SEC` lazy static (line 68), whose initializers
`expect`-panic on an unparseable value, and `NonZeroU32::new(..).expect`
panics on a zero rate (line 68). The `CF_API_KEY` lazy static is NOT
dereferenced anywhere on the startup path — `lazy_static` initializes each
static at its first dereference, and `CF_API_KEY` is first dereferenced
inside `get_proxy_request`, i.e. while handling the first request. `none`
models a startup panic; `some (port, limit)` means the server begins
serving. -/
def startup (env : Env) : Option (Nat × Nat) :=
  match parseU16? (env.port.getD "3000") with
  | none => none
  | some port =>
    match parseU32? (env.req_limit_per_sec.getD "6") with
    | none => none
    | some lim => if decide (lim = 0) then none else some (port, lim)

/-- The per-request service of the running server, with the environment
explicit: handling a request first forces the `CF_API_KEY` lazy static
(first dereference, src/src/main.rs line 56 inside `get_proxy_request`),
whose initializer `expect`-panics when the variable is absent — so a missing
secret panics at request-handling time, modelled as `none`. -/
def serve_request (env : Env) (remote_addr : IpAddr) (req : Request)
    (upstream : Except String Response) : Option (Response × List LogLine) :=
  match env.cf_api_key with
  | none => none
  | some secret => handle_request secret remote_addr req upstream

/-- Substring occurrence check over character lists. -/
def occursIn (n : List Char) : List Char → Bool
  | [] => n.isEmpty
  | c :: t => n.isPrefixOf (c :: t) || occursIn n t

/-- A string contains another as a contiguous substring. -/
def containsText (hay needle : String) : Prop :=
  ∃ pre post : String, hay = pre ++ needle ++ post

/-- Helper: a list is a Boolean prefix of itself followed by anything. -/
lemma isPrefixOf_append_self (n q : List Char) : n.isPrefixOf (n ++ q) = true := by
  induction n with
  | nil => cases q with
    | nil => rfl
    | cons c t => rfl
  | cons c t ih =>
    show ((c == c) && t.isPrefixOf (t ++ q)) = true
    rw [ih]
    simp

/-- Helper: an explicitly placed needle is found by `occursIn`. -/
lemma occursIn_append (p n q : List Char) : occursIn n (p ++ (n ++ q)) = true := by
  induction p with
  | nil =>
    cases n with
    | nil => cases q with
      | nil => rfl
      | cons c t => rfl
    | cons c t =>
      show ((c :: t).isPrefixOf ((c :: t) ++ q) || occursIn (c :: t) (t ++ q)) = true
      rw [isPrefixOf_append_self]
      rfl
  | cons c t ih =>
    show (n.isPrefixOf (c :: (t ++ (n ++ q))) || occursIn n (t ++ (n ++ q))) = true
    rw [ih]
    simp

/-- Helper bridging the substring proposition to the executable check. -/
lemma containsText_occursIn (hay needle : String) (h : containsText hay needle) :
    occursIn needle.data hay.data = true := by
  obtain ⟨pre, post, rfl⟩ := h
  have hd : (pre ++ needle ++ post).data = pre.data ++ (needle.data ++ post.data) := by
    cases pre; cases needle; cases post
    simp [String.append, List.append_assoc]
  rw [hd]
  exact occursIn_append _ _ _

/-- Helper: a string contains its own final segment. -/
lemma containsText_append_right (p e : String) : containsText (p ++ e) e :=
  ⟨p, "", by cases p; cases e; simp [String.append]⟩

/-- Helper: the fixed-upstream URI rebuild in parts form. -/
lemma fromParts_https (pq : Option String) :
    Uri.fromParts (some "https") (some "api.curseforge.com") pq
      = pq.map (fun p => ⟨some "https", some "api.curseforge.com", some p⟩) := by
  cases pq <;> rfl

/-- Helper: inversion of the request transformer — a produced outbound
request is exactly the inbound one with the URI rebuilt on the fixed
upstream authority and the `host` and `x-api-key` headers inserted. -/
lemma get_proxy_req_eq_some_iff (secret : List Nat) (req out : Request) :
    get_proxy_req secret req = some out ↔
      ∃ pq kv, req.uri.pathAndQuery = some pq ∧ headerValueOfBytes? secret = some kv ∧
        out = { req with
                uri := ⟨some "https", some "api.curseforge.com", some pq⟩,
                headers := (req.headers.insert "host" ⟨strBytes "api.curseforge.com"⟩).insert
                  "x-api-key" kv } := by
  unfold get_proxy_req
  cases hpq : req.uri.pathAndQuery <;>
    cases hkv : headerValueOfBytes? secret <;>
      simp [fromParts_https, hpq, hkv, eq_comm]

/-- Helper: a successfully built credential header carries the secret bytes
unchanged. -/
lemma headerValueOfBytes_eq_some (bs : List Nat) (kv : HeaderValue)
    (h : headerValueOfBytes? bs = some kv) : kv = ⟨bs⟩ := by
  unfold headerValueOfBytes? at h
  by_cases hb : bs.all isValidHeaderByte <;> simp [hb] at h
  exact h.symm

/-- Helper: without a path-and-query there is no outbound request — the
`Uri::from_parts(..).unwrap()` fails. -/
lemma gpr_pq_none (secret : List Nat) (req : Request)
    (h : req.uri.pathAndQuery = none) : get_proxy_req secret req = none := by
  unfold get_proxy_req
  rw [h]
  cases headerValueOfBytes? secret <;> rfl

/-- C1: for every inbound request, the outbound request produced by the
transformer has authority `api.curseforge.com` and scheme `https`
regardless of the inbound authority and scheme, and its `host` header is set
to the upstream hostname — the upstream authority is a fixed literal, never
derived from client input. -/
theorem get_proxy_req_fixed_upstream (secret : List Nat) (req out : Request)
    (h : get_proxy_req secret req = some out) :
    out.uri.authority = some "api.curseforge.com" ∧
    out.uri.scheme = some "https" ∧
    out.headers.get "host" = some ⟨strBytes "api.curseforge.com"⟩ := by
  obtain ⟨pq, kv, hpq, hkv, rfl⟩ := (get_proxy_req_eq_some_iff secret req out).1 h
  exact ⟨rfl, rfl, rfl⟩

/-- C1 witness: a concrete inbound request carrying an attacker-chosen
authority (`evil.example`) and plain scheme still yields the fixed upstream
authority, secure scheme and upstream `host` header. -/
theorem get_proxy_req_fixed_upstream_witness :
    (⟨"GET", ⟨some "https", some "api.curseforge.com", some "/v1/mods?gameId=432"⟩,
        ⟨[("x-api-key", ⟨[107, 49]⟩), ("host", ⟨strBytes "api.curseforge.com"⟩)]⟩,
        []⟩ : Request).uri.authority = some "api.curseforge.com" ∧
    (⟨"GET", ⟨some "https", some "api.curseforge.com", some "/v1/mods?gameId=432"⟩,
        ⟨[("x-api-key", ⟨[107, 49]⟩), ("host", ⟨strBytes "api.curseforge.com"⟩)]⟩,
        []⟩ : Request).uri.scheme = some "https" ∧
    (⟨"GET", ⟨some "https", some "api.curseforge.com", some "/v1/mods?gameId=432"⟩,
        ⟨[("x-api-key", ⟨[107, 49]⟩), ("host", ⟨strBytes "api.curseforge.com"⟩)]⟩,
        []⟩ : Request).headers.get "host" = some ⟨strBytes "api.curseforge.com"⟩ :=
  get_proxy_req_fixed_upstream [107, 49]
    ⟨"GET", ⟨some "http", some "evil.example", some "/v1/mods?gameId=432"⟩, ⟨[]⟩, []⟩
    _ rfl

/-- C2: every outbound request carries the `x-api-key` header and its value
is exactly the configured secret's bytes, even when the inbound request
already supplied its own value for that header (`HeaderMap::insert` replaces
all previous values). -/
theorem get_proxy_req_api_key (secret : List Nat) (req out : Request)
    (h : get_proxy_req secret req = some out) :
    out.headers.get "x-api-key" = some ⟨secret⟩ := by
  obtain ⟨pq, kv, hpq, hkv, rfl⟩ := (get_proxy_req_eq_some_iff secret req out).1 h
  obtain rfl := headerValueOfBytes_eq_some secret kv hkv
  rfl

/-- C2 witness: an inbound request that already supplies its own
`x-api-key` value (byte 98) is overridden with the configured secret
(byte 107). -/
theorem get_proxy_req_api_key_witness :
    (⟨"GET", ⟨some "https", some "api.curseforge.com", some "/a"⟩,
        ⟨[("x-api-key", ⟨[107]⟩), ("host", ⟨strBytes "api.curseforge.com"⟩)]⟩,
        []⟩ : Request).headers.get "x-api-key" = some ⟨[107]⟩ :=
  get_proxy_req_api_key [107]
    ⟨"GET", ⟨none, none, some "/a"⟩, ⟨[("x-api-key", ⟨[98]⟩)]⟩, []⟩
    _ rfl

/-- C7: the outbound request's path-and-query is byte-for-byte the inbound
one (the transformer only replaces the authority and scheme parts), and the
method and body are copied verbatim. -/
theorem get_proxy_req_preserves_path_method_body (secret : List Nat) (req out : Request)
    (h : get_proxy_req secret req = some out) :
    out.uri.pathAndQuery = req.uri.pathAndQuery ∧
    out.method = req.method ∧
    out.body = req.body := by
  obtain ⟨pq, kv, hpq, hkv, rfl⟩ := (get_proxy_req_eq_some_iff secret req out).1 h
  refine ⟨?_, rfl, rfl⟩
  rw [hpq]

/-- C7 witness: a concrete POST with a query string and a body keeps path,
query, method and body unchanged. -/
theorem get_proxy_req_preserves_path_method_body_witness :
    (⟨"POST", ⟨some "https", some "api.curseforge.com", some "/v1/mods/search?gameId=432&x=%20"⟩,
        ⟨[("x-api-key", ⟨[107]⟩), ("host", ⟨strBytes "api.curseforge.com"⟩)]⟩,
        [1, 2, 3]⟩ : Request).uri.pathAndQuery
      = (⟨"POST", ⟨some "http", some "h", some "/v1/mods/search?gameId=432&x=%20"⟩, ⟨[]⟩,
          [1, 2, 3]⟩ : Request).uri.pathAndQuery ∧
    (⟨"POST", ⟨some "https", some "api.curseforge.com", some "/v1/mods/search?gameId=432&x=%20"⟩,
        ⟨[("x-api-key", ⟨[107]⟩), ("host", ⟨strBytes "api.curseforge.com"⟩)]⟩,
        [1, 2, 3]⟩ : Request).method
      = (⟨"POST", ⟨some "http", some "h", some "/v1/mods/search?gameId=432&x=%20"⟩, ⟨[]⟩,
          [1, 2, 3]⟩ : Request).method ∧
    (⟨"POST", ⟨some "https", some "api.curseforge.com", some "/v1/mods/search?gameId=432&x=%20"⟩,
        ⟨[("x-api-key", ⟨[107]⟩), ("host", ⟨strBytes "api.curseforge.com"⟩)]⟩,
        [1, 2, 3]⟩ : Request).body
      = (⟨"POST", ⟨some "http", some "h", some "/v1/mods/search?gameId=432&x=%20"⟩, ⟨[]⟩,
          [1, 2, 3]⟩ : Request).body :=
  get_proxy_req_preserves_path_method_body [107]
    ⟨"POST", ⟨some "http", some "h", some "/v1/mods/search?gameId=432&x=%20"⟩, ⟨[]⟩, [1, 2, 3]⟩
    _ rfl

/-- C8 counterexample: the claim says a request with no path/query component
makes the transformer fail with a recoverable `MalformedRequest` error
value. The code has no such error value — its transformer returns a plain
`Request` and reaches `Uri::from_parts(..).unwrap()`, which panics
(modelled as `none`) on a CONNECT-style request whose URI has no
path-and-query. -/
theorem get_proxy_req_missing_path_panics_cex :
    get_proxy_req [107]
      ⟨"CONNECT", ⟨none, some "example.com:443", none⟩, ⟨[]⟩, []⟩ = none := rfl

/-- C8 amended: if the inbound request has no path/query component, the
transformer panics at the `Uri::from_parts` unwrap instead of returning a
recoverable error value; constructing the outbound request is a pure
computation with no other side effects. -/
theorem get_proxy_req_missing_path_panics (secret : List Nat) (req : Request)
    (h : req.uri.pathAndQuery = none) :
    get_proxy_req secret req = none :=
  gpr_pq_none secret req h

/-- C8 witness: the amended statement at a concrete authority-form request. -/
theorem get_proxy_req_missing_path_panics_witness :
    get_proxy_req [55]
      ⟨"CONNECT", ⟨none, some "other.example:80", none⟩, ⟨[]⟩, []⟩ = none :=
  get_proxy_req_missing_path_panics [55]
    ⟨"CONNECT", ⟨none, some "other.example:80", none⟩, ⟨[]⟩, []⟩ rfl

/-- C3 counterexample: a request arrives from peer 10.0.0.1 with a valid,
parseable `Fly-Client-IP: 1.2.3.4` header; the claim says the key used for
rate limiting then equals 1.2.3.4, but the server (main.rs) keys its rate
limiter on the connection's direct peer address for every request —
`get_real_ip_addr` is never called by the server — so the key is 10.0.0.1,
not the header literal. -/
theorem rate_limit_key_ignores_forwarded_header_cex :
    (⟨"GET", ⟨none, none, some "/a"⟩, ⟨[("fly-client-ip", ⟨strBytes "1.2.3.4"⟩)]⟩,
        []⟩ : Request).headers.get "Fly-Client-IP" = some ⟨strBytes "1.2.3.4"⟩ ∧
    HeaderValue.toStr? ⟨strBytes "1.2.3.4"⟩ = some "1.2.3.4" ∧
    parse_ip? "1.2.3.4" = some (IpAddr.v4 1 2 3 4) ∧
    rate_limit_key (IpAddr.v4 10 0 0 1) = IpAddr.v4 10 0 0 1 ∧
    rate_limit_key (IpAddr.v4 10 0 0 1) ≠ IpAddr.v4 1 2 3 4 := by
  refine ⟨rfl, rfl, rfl, rfl, ?_⟩
  decide

/-- C3 amended: the library function `get_real_ip_addr` implements the
claimed key derivation — when `Fly-Client-IP` is present, visible ASCII,
non-empty, and parses as an IPv4 or IPv6 literal it returns that literal —
but the server's rate limiter is always keyed on the direct TCP peer
address; the function's result is not used for rate limiting. -/
theorem real_ip_addr_vs_rate_limit_key (req : Request) (remote : IpAddr)
    (v : HeaderValue) (s : String) (ip : IpAddr)
    (hv : req.headers.get "Fly-Client-IP" = some v)
    (hs : v.toStr? = some s) (hne : s ≠ "") (hp : parse_ip? s = some ip) :
    get_real_ip_addr req remote = some ip ∧ rate_limit_key remote = remote := by
  refine ⟨?_, rfl⟩
  unfold get_real_ip_addr
  rw [hv]
  simp only [hs, if_neg hne, hp]

/-- C3 amended witness: the concrete header `1.2.3.4` from peer 10.0.0.1. -/
theorem real_ip_addr_vs_rate_limit_key_witness :
    get_real_ip_addr
        ⟨"GET", ⟨none, none, some "/a"⟩, ⟨[("fly-client-ip", ⟨strBytes "1.2.3.4"⟩)]⟩, []⟩
        (IpAddr.v4 10 0 0 1) = some (IpAddr.v4 1 2 3 4) ∧
    rate_limit_key (IpAddr.v4 10 0 0 1) = IpAddr.v4 10 0 0 1 :=
  real_ip_addr_vs_rate_limit_key
    ⟨"GET", ⟨none, none, some "/a"⟩, ⟨[("fly-client-ip", ⟨strBytes "1.2.3.4"⟩)]⟩, []⟩
    (IpAddr.v4 10 0 0 1) ⟨strBytes "1.2.3.4"⟩ "1.2.3.4" (IpAddr.v4 1 2 3 4)
    rfl rfl (by decide) rfl

/-- C10 counterexample: the claim says `get_real_ip_addr` is total even for
header values containing bytes that are not visible ASCII. A `Fly-Client-IP`
value holding byte 200 is a legal `HeaderValue` (the `http` crate allows
opaque bytes 128..=255 from the wire) but `to_str()` fails on it, so the
source's `to_str().unwrap()` panics — modelled as `none`. -/
theorem get_real_ip_addr_nonascii_header_cex :
    get_real_ip_addr
        ⟨"GET", ⟨none, none, some "/"⟩, ⟨[("fly-client-ip", ⟨[200]⟩)]⟩, []⟩
        (IpAddr.v4 1 2 3 4) = none ∧
    isValidHeaderByte 200 = true := ⟨rfl, rfl⟩

/-- C10 amended: `get_real_ip_addr` returns without panicking whenever the
`Fly-Client-IP` value, if present, is visible ASCII; the result is then the
parsed header literal when the value is non-empty and parses as IPv4 or
IPv6, and the direct peer address in every other case (header absent, value
empty, or not a parseable IP literal). On a header value with bytes outside
visible ASCII the function panics (see the counterexample). -/
theorem get_real_ip_addr_total_on_ascii (req : Request) (remote : IpAddr)
    (h : (req.headers.get "Fly-Client-IP").all (fun v => v.toStr?.isSome) = true) :
    get_real_ip_addr req remote
      = some (match (req.headers.get "Fly-Client-IP").bind HeaderValue.toStr? with
              | none => remote
              | some s => if s = "" then remote else (parse_ip? s).getD remote) := by
  unfold get_real_ip_addr
  cases hg : req.headers.get "Fly-Client-IP" with
  | none => rfl
  | some v =>
    rw [hg] at h
    simp only [Option.all_some] at h
    obtain ⟨s, hs⟩ := Option.isSome_iff_exists.1 h
    simp only [hs, Option.some_bind]
    by_cases he : s = ""
    · simp [he]
    · simp only [if_neg he]
      cases hp : parse_ip? s <;> simp [hp]

/-- C10 amended witness: a visible-ASCII header value that is not an IP
literal falls back to the peer address without panicking. -/
theorem get_real_ip_addr_total_on_ascii_witness :
    ((⟨"GET", ⟨none, none, some "/"⟩, ⟨[("fly-client-ip", ⟨strBytes "not-an-ip"⟩)]⟩,
        []⟩ : Request).headers.get "Fly-Client-IP").all (fun v => v.toStr?.isSome) = true ∧
    get_real_ip_addr
        ⟨"GET", ⟨none, none, some "/"⟩, ⟨[("fly-client-ip", ⟨strBytes "not-an-ip"⟩)]⟩, []⟩
        (IpAddr.v4 10 0 0 2)
      = some (match ((⟨"GET", ⟨none, none, some "/"⟩,
            ⟨[("fly-client-ip", ⟨strBytes "not-an-ip"⟩)]⟩, []⟩ : Request).headers.get
              "Fly-Client-IP").bind HeaderValue.toStr? with
          | none => IpAddr.v4 10 0 0 2
          | some s => if s = "" then IpAddr.v4 10 0 0 2
                      else (parse_ip? s).getD (IpAddr.v4 10 0 0 2)) :=
  ⟨rfl,
   get_real_ip_addr_total_on_ascii
     ⟨"GET", ⟨none, none, some "/"⟩, ⟨[("fly-client-ip", ⟨strBytes "not-an-ip"⟩)]⟩, []⟩
     (IpAddr.v4 10 0 0 2) rfl⟩

/-- C4 counterexample: the claim says the failure record includes the
failure detail. In the running server (main.rs `service_fn` closure) the
failure line is `eprintln!("[{:>15}] <!> {} failed", remote, path)` — it
carries the client key and path but no failure detail: the concrete failure
detail string does not occur in the emitted record. -/
theorem main_error_log_lacks_detail_cex :
    handle_request [107] (IpAddr.v4 1 2 3 4)
        ⟨"GET", ⟨none, none, some "/a"⟩, ⟨[]⟩, []⟩ (.error "connection refused")
      = some (⟨500, "Proxy Server Error while reading request"⟩,
          [⟨.stderr, "[        1.2.3.4] <!> /a failed"⟩]) ∧
    ¬ containsText "[        1.2.3.4] <!> /a failed" "connection refused" := by
  refine ⟨rfl, fun h => absurd (containsText_occursIn _ _ h) ?_⟩
  decide

/-- C4 amended: whenever the upstream call fails, the raw error is never
propagated — the client receives a synthesized 500 response whose body is
the fixed non-empty string "Proxy Server Error while reading request",
independent of the error; the handler returns normally (an `Ok` value, its
error type is `Infallible`), so serving continues. The library's
`proxy_request_to_cf` emits a stderr record with the client key, the request
path and the failure detail; the server's handler in main.rs emits a stderr
record with the client key and the request path but without the failure
detail. -/
theorem upstream_failure_handling (secret : List Nat) (remote : IpAddr)
    (req proxyReq : Request) (errText : String)
    (hp : get_proxy_req secret req = some proxyReq) :
    proxy_request_to_cf secret remote req (.error errText)
      = some (⟨500, "Proxy Server Error while reading request"⟩,
          [⟨.stderr, "[" ++ ipDisplay remote ++ "] <!> " ++ proxyReq.uri.path
            ++ " failed: " ++ errText⟩]) ∧
    handle_request secret remote req (.error errText)
      = some (⟨500, "Proxy Server Error while reading request"⟩,
          [⟨.stderr, "[" ++ padTo15 (ipDisplay remote) ++ "] <!> " ++ proxyReq.uri.path
            ++ " failed"⟩]) ∧
    containsText ("[" ++ ipDisplay remote ++ "] <!> " ++ proxyReq.uri.path
      ++ " failed: " ++ errText) errText ∧
    "Proxy Server Error while reading request" ≠ "" := by
  refine ⟨?_, ?_, containsText_append_right _ _, by decide⟩
  · unfold proxy_request_to_cf
    rw [hp]
  · unfold handle_request get_proxy_request
    rw [hp]

/-- C4 amended witness: a concrete request and failure text. -/
theorem upstream_failure_handling_witness :
    proxy_request_to_cf [107] (IpAddr.v4 5 6 7 8)
        ⟨"GET", ⟨none, none, some "/w"⟩, ⟨[]⟩, []⟩ (.error "boom")
      = some (⟨500, "Proxy Server Error while reading request"⟩,
          [⟨.stderr, "[" ++ ipDisplay (IpAddr.v4 5 6 7 8) ++ "] <!> "
            ++ (⟨"GET", ⟨some "https", some "api.curseforge.com", some "/w"⟩,
                ⟨[("x-api-key", ⟨[107]⟩), ("host", ⟨strBytes "api.curseforge.com"⟩)]⟩,
                []⟩ : Request).uri.path ++ " failed: " ++ "boom"⟩]) ∧
    handle_request [107] (IpAddr.v4 5 6 7 8)
        ⟨"GET", ⟨none, none, some "/w"⟩, ⟨[]⟩, []⟩ (.error "boom")
      = some (⟨500, "Proxy Server Error while reading request"⟩,
          [⟨.stderr, "[" ++ padTo15 (ipDisplay (IpAddr.v4 5 6 7 8)) ++ "] <!> "
            ++ (⟨"GET", ⟨some "https", some "api.curseforge.com", some "/w"⟩,
                ⟨[("x-api-key", ⟨[107]⟩), ("host", ⟨strBytes "api.curseforge.com"⟩)]⟩,
                []⟩ : Request).uri.path ++ " failed"⟩]) ∧
    containsText ("[" ++ ipDisplay (IpAddr.v4 5 6 7 8) ++ "] <!> "
      ++ (⟨"GET", ⟨some "https", some "api.curseforge.com", some "/w"⟩,
          ⟨[("x-api-key", ⟨[107]⟩), ("host", ⟨strBytes "api.curseforge.com"⟩)]⟩,
          []⟩ : Request).uri.path ++ " failed: " ++ "boom") "boom" ∧
    "Proxy Server Error while reading request" ≠ "" :=
  upstream_failure_handling [107] (IpAddr.v4 5 6 7 8)
    ⟨"GET", ⟨none, none, some "/w"⟩, ⟨[]⟩, []⟩ _ "boom" rfl

/-- C6 counterexample: the claim says the secret is read once at process
start. With a missing `CF_API_KEY` and otherwise valid configuration,
startup completes and the server begins serving (the `CF_API_KEY` lazy
static is not dereferenced on the startup path); the read happens at the
first request, where its `expect` panics. -/
theorem secret_read_lazily_cex :
    startup ⟨none, some "3000", some "6"⟩ = some (3000, 6) ∧
    serve_request ⟨none, some "3000", some "6"⟩ (IpAddr.v4 9 9 9 9)
      ⟨"GET", ⟨none, none, some "/b"⟩, ⟨[]⟩, []⟩ (.ok ⟨200, ""⟩) = none :=
  ⟨rfl, rfl⟩

/-- C6 amended: the secret is read once, but on first use (the first
handled request) rather than at process start; it is never logged, echoed,
or included in any response — every log line and every synthesized or
relayed response is independent of the secret's value: swapping the secret
leaves both handlers' complete output (response and log lines) unchanged,
for any request and any fixed upstream behavior. -/
theorem secret_noninterference (s1 s2 : List Nat) (kv1 kv2 : HeaderValue)
    (h1 : headerValueOfBytes? s1 = some kv1) (h2 : headerValueOfBytes? s2 = some kv2)
    (remote : IpAddr) (req : Request) (upstream : Except String Response) :
    handle_request s1 remote req upstream = handle_request s2 remote req upstream ∧
    proxy_request_to_cf s1 remote req upstream = proxy_request_to_cf s2 remote req upstream := by
  cases hpq : req.uri.pathAndQuery with
  | none =>
    simp [handle_request, get_proxy_request, proxy_request_to_cf, gpr_pq_none _ _ hpq]
  | some pq =>
    have e1 : get_proxy_req s1 req = some { req with
        uri := ⟨some "https", some "api.curseforge.com", some pq⟩,
        headers := (req.headers.insert "host" ⟨strBytes "api.curseforge.com"⟩).insert
          "x-api-key" kv1 } := (get_proxy_req_eq_some_iff s1 req _).2 ⟨pq, kv1, hpq, h1, rfl⟩
    have e2 : get_proxy_req s2 req = some { req with
        uri := ⟨some "https", some "api.curseforge.com", some pq⟩,
        headers := (req.headers.insert "host" ⟨strBytes "api.curseforge.com"⟩).insert
          "x-api-key" kv2 } := (get_proxy_req_eq_some_iff s2 req _).2 ⟨pq, kv2, hpq, h2, rfl⟩
    unfold handle_request get_proxy_request proxy_request_to_cf
    rw [e1, e2]
    cases upstream <;> exact ⟨rfl, rfl⟩

/-- C6 amended witness: two distinct secrets produce identical outputs on a
concrete request, both on the success path and on the failure path of the
two handlers. -/
theorem secret_noninterference_witness :
    handle_request [107, 49] (IpAddr.v4 3 3 3 3)
        ⟨"GET", ⟨none, none, some "/n"⟩, ⟨[]⟩, []⟩ (.ok ⟨200, "ok"⟩)
      = handle_request [108, 50] (IpAddr.v4 3 3 3 3)
        ⟨"GET", ⟨none, none, some "/n"⟩, ⟨[]⟩, []⟩ (.ok ⟨200, "ok"⟩) ∧
    proxy_request_to_cf [107, 49] (IpAddr.v4 3 3 3 3)
        ⟨"GET", ⟨none, none, some "/n"⟩, ⟨[]⟩, []⟩ (.ok ⟨200, "ok"⟩)
      = proxy_request_to_cf [108, 50] (IpAddr.v4 3 3 3 3)
        ⟨"GET", ⟨none, none, some "/n"⟩, ⟨[]⟩, []⟩ (.ok ⟨200, "ok"⟩) :=
  secret_noninterference [107, 49] [108, 50] ⟨[107, 49]⟩ ⟨[108, 50]⟩ rfl rfl
    (IpAddr.v4 3 3 3 3) ⟨"GET", ⟨none, none, some "/n"⟩, ⟨[]⟩, []⟩ (.ok ⟨200, "ok"⟩)

/-- C9 counterexample: the claim says a missing secret environment variable
is fatal at startup before the process begins serving and never a
per-request condition. With every variable absent, startup succeeds with the
defaults (port 3000, rate 6) — the server begins serving — and the missing
secret then panics while handling a request. -/
theorem missing_secret_not_startup_fatal_cex :
    startup ⟨none, none, none⟩ = some (3000, 6) ∧
    serve_request ⟨none, none, none⟩ (IpAddr.v4 8 8 8 8)
      ⟨"GET", ⟨none, none, some "/c"⟩, ⟨[]⟩, []⟩ (.ok ⟨200, "hi"⟩) = none :=
  ⟨rfl, rfl⟩

/-- C9 amended: an invalid `PORT`, an invalid `REQ_LIMIT_PER_SEC`, and a
zero requested rate are each fatal at startup, before the process begins
serving (their lazy statics and the `NonZeroU32` check are forced in `main`
before `Server::bind`); a missing `CF_API_KEY`, by contrast, is not a
startup error — it surfaces as a panic on the first handled request (see
the counterexample). -/
theorem config_error_startup_fatal (env : Env)
    (h : parseU16? (env.port.getD "3000") = none ∨
         parseU32? (env.req_limit_per_sec.getD "6") = none ∨
         parseU32? (env.req_limit_per_sec.getD "6") = some 0) :
    startup env = none := by
  unfold startup
  rcases h with h | h | h
  · rw [h]
  · cases hp : parseU16? (env.port.getD "3000")
    · rfl
    · rw [h]
  · cases hp : parseU16? (env.port.getD "3000")
    · rfl
    · rw [h]
      rfl

/-- C9 amended witness: a `PORT` value out of the u16 range is fatal at
startup. -/
theorem config_error_startup_fatal_witness :
    startup ⟨some [107], some "70000", some "6"⟩ = none :=
  config_error_startup_fatal ⟨some [107], some "70000", some "6"⟩ (Or.inl rfl)

end CFProxy
